import Mathlib

/-!
Verification of the wire-buffer core declared in
`loci/inc/loci/of_wire_buf.h` (the only source file of this repository).

The C functions are shallowly embedded as pure Lean functions over an
explicit buffer state.  Conventions of the embedding:

* The data buffer `uint8_t *buf` is a `List Nat` of byte values; a NULL
  data pointer is `none`.  A NULL `of_wire_buffer_t *` pointer itself is
  not representable: every operation is modelled on a valid struct (a
  NULL struct pointer fails the same `LOCI_ASSERT` as a NULL data
  pointer, so nothing is lost for the properties below).
* C `int` fields and arguments (`alloc_bytes`, `current_bytes`, offsets,
  lengths, versions) are `Int`.
* `LOCI_ASSERT` aborts the process before any further statement runs.
  A mutating function is embedded as `state → args → state × Bool`:
  on an assertion failure it returns the state it had reached at the
  failing assertion (always the unmodified input state, since every
  assertion in this file precedes the first mutation) and `false`;
  on completion it returns the new state and `true`.  A reading
  function returns `Option` of the value: `none` models the abort,
  in which case the caller's output location is never written.
* `MEMMOVE` is the overlap-safe libc block move: the source range is
  read in full before the destination is written.
-/

namespace OfWireBuf

/-- Modelled from the spec: the `buf_uN_set` primitives of `of_buffer.h`
(absent from the sources) store multi-byte values in one fixed byte order,
network/big-endian.  `beBytes n v` is the `n`-byte big-endian encoding of
`v` (most significant byte first); values wider than `n` bytes are reduced
modulo `256 ^ n` exactly as the C store of an `n`-byte integer is. -/
def beBytes : Nat → Nat → List Nat
  | 0, _ => []
  | n + 1, v => beBytes n (v / 256) ++ [v % 256]

/-- Modelled from the spec: the `buf_uN_get` primitives of `of_buffer.h`
(absent from the sources) read multi-byte values in network/big-endian
order.  `beVal l` is the value of the byte list `l` read big-endian. -/
def beVal (l : List Nat) : Nat :=
  l.foldl (fun acc b => acc * 256 + b) 0

/-- Read `n` bytes of `l` starting at position `pos`. -/
def readBytes (l : List Nat) (pos n : Nat) : List Nat :=
  (l.drop pos).take n

/-- Overwrite `l` at position `pos` with the bytes `s`. -/
def writeBytes (l : List Nat) (pos : Nat) (s : List Nat) : List Nat :=
  l.take pos ++ s ++ l.drop (pos + s.length)

/-- Semantics of `MEMMOVE(&l[dst], &l[src], n)`: the moved bytes are those
of the source range before the write, so overlapping ranges are handled
as the C contract of `memmove` requires. -/
def memmove (l : List Nat) (dst src n : Nat) : List Nat :=
  writeBytes l dst (readBytes l src n)

/-- The `of_wire_buffer_t` management structure: data pointer (`none` for
NULL), `alloc_bytes`, `current_bytes`, and whether a custom deallocation
function `free` was supplied (`of_buffer_free_f` pointer, modelled by a
Bool since only its presence is ever tested here). -/
structure of_wire_buffer where
  buf : Option (List Nat)
  alloc_bytes : Int
  current_bytes : Int
  buf_free : Bool
deriving DecidableEq

/-- Bytes of the data buffer (only meaningful after a NULL check). -/
def bufData (w : of_wire_buffer) : List Nat :=
  w.buf.getD []

/-- The `OF_WIRE_BUFFER_ACCESS_CHECK(wbuf, ext)` macro: asserts that the
struct and its storage are non-NULL, that the required extent `ext` is
strictly positive, and that `current_bytes >= ext`. -/
def accessCheck (w : of_wire_buffer) (ext : Int) : Bool :=
  w.buf.isSome && decide (0 < ext) && decide (ext ≤ w.current_bytes)

/-- State invariant of §3 of the spec: `0 ≤ used_extent ≤ capacity`. -/
def wbuf_invariant (w : of_wire_buffer) : Prop :=
  0 ≤ w.current_bytes ∧ w.current_bytes ≤ w.alloc_bytes

/-- A wire buffer whose storage pointer is live and whose allocated length
really is `alloc_bytes` (the C functions maintain this; it is the implicit
validity assumption of every pointer dereference). -/
def wf (w : of_wire_buffer) : Prop :=
  w.buf.isSome = true ∧ ((bufData w).length : Int) = w.alloc_bytes

instance (w : of_wire_buffer) : Decidable (wbuf_invariant w) :=
  inferInstanceAs (Decidable (_ ∧ _))

instance (w : of_wire_buffer) : Decidable (wf w) :=
  inferInstanceAs (Decidable (_ ∧ _))

/-- Common body of the four fixed-width scalar getters
(`of_wire_buffer_u{8,16,32,64}_get` differ only in `sizeof`):
bounds check for extent `offset + n`, then a big-endian read of
`n` bytes at `offset`. -/
def scalar_get (n : Nat) (w : of_wire_buffer) (offset : Int) : Option Nat :=
  if accessCheck w (offset + (n : Int)) then
    some (beVal (readBytes (bufData w) offset.toNat n))
  else
    none

/-- Common body of the four fixed-width scalar setters
(`of_wire_buffer_u{8,16,32,64}_set` differ only in `sizeof`):
bounds check for extent `offset + n`, then a big-endian store of
`n` bytes at `offset`. -/
def scalar_set (n : Nat) (w : of_wire_buffer) (offset : Int) (v : Nat) :
    of_wire_buffer × Bool :=
  if accessCheck w (offset + (n : Int)) then
    ({ w with buf := some (writeBytes (bufData w) offset.toNat (beBytes n v)) },
     true)
  else
    (w, false)

def of_wire_buffer_u8_get (w : of_wire_buffer) (offset : Int) : Option Nat :=
  scalar_get 1 w offset

def of_wire_buffer_u8_set (w : of_wire_buffer) (offset : Int) (v : Nat) :
    of_wire_buffer × Bool :=
  scalar_set 1 w offset v

def of_wire_buffer_u16_get (w : of_wire_buffer) (offset : Int) : Option Nat :=
  scalar_get 2 w offset

def of_wire_buffer_u16_set (w : of_wire_buffer) (offset : Int) (v : Nat) :
    of_wire_buffer × Bool :=
  scalar_set 2 w offset v

def of_wire_buffer_u32_get (w : of_wire_buffer) (offset : Int) : Option Nat :=
  scalar_get 4 w offset

def of_wire_buffer_u32_set (w : of_wire_buffer) (offset : Int) (v : Nat) :
    of_wire_buffer × Bool :=
  scalar_set 4 w offset v

def of_wire_buffer_u64_get (w : of_wire_buffer) (offset : Int) : Option Nat :=
  scalar_get 8 w offset

def of_wire_buffer_u64_set (w : of_wire_buffer) (offset : Int) (v : Nat) :
    of_wire_buffer × Bool :=
  scalar_set 8 w offset v

/-- Version tags of the four supported wire versions.  The numeric values
come from `loci_base.h`, which is not under the sources; none of the
theorems below depends on the values, only on the four being distinct. -/
def OF_VERSION_1_0 : Int := 1

def OF_VERSION_1_1 : Int := 2

def OF_VERSION_1_2 : Int := 3

def OF_VERSION_1_3 : Int := 4

/-- Version-dispatched port-number getter: 16 bits in version 1.0,
32 bits in versions 1.1 to 1.3, `LOCI_ASSERT(0)` otherwise.  The widening
assignment into the canonical `of_port_no_t` is the identity on values. -/
def of_wire_buffer_port_no_get (version : Int) (w : of_wire_buffer)
    (offset : Int) : Option Nat :=
  if version = OF_VERSION_1_0 then
    of_wire_buffer_u16_get w offset
  else if version = OF_VERSION_1_1 ∨ version = OF_VERSION_1_2 ∨
      version = OF_VERSION_1_3 then
    of_wire_buffer_u32_get w offset
  else
    none

/-- Version-dispatched port-number setter.  The C casts `(uint16_t)value`
and `(uint32_t)value` are the reductions modulo `2 ^ 16` and `2 ^ 32`. -/
def of_wire_buffer_port_no_set (version : Int) (w : of_wire_buffer)
    (offset : Int) (value : Nat) : of_wire_buffer × Bool :=
  if version = OF_VERSION_1_0 then
    of_wire_buffer_u16_set w offset (value % 2 ^ 16)
  else if version = OF_VERSION_1_1 ∨ version = OF_VERSION_1_2 ∨
      version = OF_VERSION_1_3 then
    of_wire_buffer_u32_set w offset (value % 2 ^ 32)
  else
    (w, false)

/-- Version-dispatched flow-mod-command getter: 16 bits in version 1.0,
8 bits in versions 1.1 to 1.3, `LOCI_ASSERT(0)` otherwise. -/
def of_wire_buffer_fm_cmd_get (version : Int) (w : of_wire_buffer)
    (offset : Int) : Option Nat :=
  if version = OF_VERSION_1_0 then
    of_wire_buffer_u16_get w offset
  else if version = OF_VERSION_1_1 ∨ version = OF_VERSION_1_2 ∨
      version = OF_VERSION_1_3 then
    of_wire_buffer_u8_get w offset
  else
    none

/-- Version-dispatched flow-mod-command setter, with the C narrowing
casts `(uint16_t)value` and `(uint8_t)value`. -/
def of_wire_buffer_fm_cmd_set (version : Int) (w : of_wire_buffer)
    (offset : Int) (value : Nat) : of_wire_buffer × Bool :=
  if version = OF_VERSION_1_0 then
    of_wire_buffer_u16_set w offset (value % 2 ^ 16)
  else if version = OF_VERSION_1_1 ∨ version = OF_VERSION_1_2 ∨
      version = OF_VERSION_1_3 then
    of_wire_buffer_u8_set w offset (value % 2 ^ 8)
  else
    (w, false)

/-- Version-dispatched wildcard-bitmap getter: 32 bits in versions 1.0
and 1.1, 64 bits in versions 1.2 and 1.3, `LOCI_ASSERT(0)` otherwise. -/
def of_wire_buffer_wc_bmap_get (version : Int) (w : of_wire_buffer)
    (offset : Int) : Option Nat :=
  if version = OF_VERSION_1_0 ∨ version = OF_VERSION_1_1 then
    of_wire_buffer_u32_get w offset
  else if version = OF_VERSION_1_2 ∨ version = OF_VERSION_1_3 then
    of_wire_buffer_u64_get w offset
  else
    none

/-- Version-dispatched wildcard-bitmap setter, with the C narrowing casts
`(uint32_t)value` and `(uint64_t)value`. -/
def of_wire_buffer_wc_bmap_set (version : Int) (w : of_wire_buffer)
    (offset : Int) (value : Nat) : of_wire_buffer × Bool :=
  if version = OF_VERSION_1_0 ∨ version = OF_VERSION_1_1 then
    of_wire_buffer_u32_set w offset (value % 2 ^ 32)
  else if version = OF_VERSION_1_2 ∨ version = OF_VERSION_1_3 then
    of_wire_buffer_u64_set w offset (value % 2 ^ 64)
  else
    (w, false)

/-- Byte-run getter `of_wire_buffer_octets_data_get`: the number of bytes
to copy comes from the octets object's `bytes` field (`nbytes` here); the
copied bytes are returned instead of being written through the octets
object's data pointer. -/
def of_wire_buffer_octets_data_get (w : of_wire_buffer) (offset : Int)
    (nbytes : Int) : Option (List Nat) :=
  if accessCheck w (offset + nbytes) then
    some (readBytes (bufData w) offset.toNat nbytes.toNat)
  else
    none

/-- Byte-run setter `of_wire_buffer_octets_data_set`: the octets object is
the list `data` (its `bytes` field is `data.length`).  The function first
asserts `cur_len == 0 || cur_len == value->bytes`, then bounds checks,
then copies. -/
def of_wire_buffer_octets_data_set (w : of_wire_buffer) (offset : Int)
    (data : List Nat) (cur_len : Int) : of_wire_buffer × Bool :=
  if cur_len = 0 ∨ cur_len = (data.length : Int) then
    if accessCheck w (offset + (data.length : Int)) then
      ({ w with buf := some (writeBytes (bufData w) offset.toNat data) },
       true)
    else
      (w, false)
  else
    (w, false)

/-- Minimum allocation size for a wire buffer object. -/
def OF_WIRE_BUFFER_MIN_ALLOC_BYTES : Int := 128

/-- `of_wire_buffer_new(a_bytes)` on the success path: requests below the
minimum floor are raised to it, the data buffer is zero-filled by
`MEMSET`, and the buffer starts empty.  The `MEMSET` of the struct leaves
`free` NULL.  (Allocation failure returns NULL to the caller and creates
no state; the claims below are about successful allocation.) -/
def of_wire_buffer_new (a_bytes : Int) : of_wire_buffer :=
  let a := if a_bytes < OF_WIRE_BUFFER_MIN_ALLOC_BYTES then
    OF_WIRE_BUFFER_MIN_ALLOC_BYTES
  else
    a_bytes
  { buf := some (List.replicate a.toNat 0)
    alloc_bytes := a
    current_bytes := 0
    buf_free := false }

/-- `of_wire_buffer_new_bind(buf, bytes, buf_free)` on the success path:
the caller's bytes are adopted as-is, both extents are set to `bytes`,
and the release function pointer is stored (`true` when supplied). -/
def of_wire_buffer_new_bind (b : List Nat) (bytes : Int) (bfree : Bool) :
    of_wire_buffer :=
  { buf := some b
    alloc_bytes := bytes
    current_bytes := bytes
    buf_free := bfree }

/-- What `of_wire_buffer_free` does to the data buffer: nothing when the
data pointer is NULL, otherwise a call of the stored release function
when one was supplied, and the default allocator `FREE` when not.  (The
struct itself is always freed; the data bytes are never written.) -/
inductive FreeAction where
  | callerRelease
  | defaultFree
  | noFree
deriving DecidableEq

def of_wire_buffer_free (w : of_wire_buffer) : FreeAction :=
  match w.buf with
  | none => FreeAction.noFree
  | some _ => if w.buf_free then FreeAction.callerRelease
    else FreeAction.defaultFree

/-- `of_wire_buffer_grow(wbuf, bytes)`: asserts `alloc_bytes >= bytes`,
then raises `current_bytes` to `bytes` if that is an increase. -/
def of_wire_buffer_grow (w : of_wire_buffer) (bytes : Int) :
    of_wire_buffer × Bool :=
  if bytes ≤ w.alloc_bytes then
    (if w.current_bytes < bytes then { w with current_bytes := bytes }
     else w,
     true)
  else
    (w, false)

/-- `of_wire_buffer_move_end(wbuf, start_offset, new_offset)` exactly as
written in the header: for a forward move it bounds checks the extent
`alloc_bytes + (new_offset - start_offset)`; in both directions it then
moves `|new_offset - start_offset|` bytes from `start_offset` to
`new_offset` and stores the adjusted length into `alloc_bytes`. -/
def of_wire_buffer_move_end (w : of_wire_buffer)
    (start_offset new_offset : Int) : of_wire_buffer × Bool :=
  if start_offset < new_offset then
    let bytes := new_offset - start_offset
    let new_length := w.alloc_bytes + bytes
    if accessCheck w new_length then
      ({ w with
          buf := some (memmove (bufData w) new_offset.toNat
            start_offset.toNat bytes.toNat)
          alloc_bytes := new_length },
       true)
    else
      (w, false)
  else
    let bytes := start_offset - new_offset
    let new_length := w.alloc_bytes - bytes
    ({ w with
        buf := some (memmove (bufData w) new_offset.toNat
          start_offset.toNat bytes.toNat)
        alloc_bytes := new_length },
     true)

/-! Concrete buffers used to evaluate the operations at specific inputs. -/

/-- A 20-byte bound buffer holding the bytes 0,…,19
(`alloc_bytes = current_bytes = 20`). -/
def wb20 : of_wire_buffer :=
  of_wire_buffer_new_bind
    [0, 1, 2, 3, 4, 5, 6, 7, 8, 9, 10, 11, 12, 13, 14, 15, 16, 17, 18, 19]
    20 false

/-- A 4-byte zeroed bound buffer. -/
def wb4 : of_wire_buffer :=
  of_wire_buffer_new_bind [0, 0, 0, 0] 4 false

/-- An 8-byte zeroed bound buffer. -/
def wb8 : of_wire_buffer :=
  of_wire_buffer_new_bind [0, 0, 0, 0, 0, 0, 0, 0] 8 false

/-- A 12-byte bound buffer (`alloc_bytes = current_bytes = 12`). -/
def wb12 : of_wire_buffer :=
  of_wire_buffer_new_bind [7, 7, 7, 7, 7, 7, 7, 7, 7, 7, 7, 7] 12 false

/-! Helper lemmas about the byte-level primitives. -/

lemma beBytes_length (n v : Nat) : (beBytes n v).length = n := by
  induction n generalizing v with
  | zero => rfl
  | succ n ih => simp [beBytes, ih]

lemma beVal_append_singleton (l : List Nat) (b : Nat) :
    beVal (l ++ [b]) = beVal l * 256 + b := by
  simp [beVal, List.foldl_append]

lemma beVal_beBytes (n v : Nat) : beVal (beBytes n v) = v % 256 ^ n := by
  induction n generalizing v with
  | zero => simp [beBytes, beVal, Nat.mod_one]
  | succ n ih =>
    rw [beBytes, beVal_append_singleton, ih]
    have h : v % (256 * 256 ^ n) = v % 256 + 256 * (v / 256 % 256 ^ n) :=
      Nat.mod_mul
    have hpow : (256 : Nat) ^ (n + 1) = 256 * 256 ^ n := by ring
    rw [hpow]
    omega

lemma readBytes_writeBytes (l s : List Nat) (pos : Nat)
    (h : pos + s.length ≤ l.length) :
    readBytes (writeBytes l pos s) pos s.length = s := by
  have hp : pos ≤ l.length := le_trans (Nat.le_add_right _ _) h
  have h1 : (l.take pos).length = pos := by
    rw [List.length_take]
    omega
  unfold readBytes writeBytes
  rw [List.append_assoc]
  calc ((l.take pos ++ (s ++ l.drop (pos + s.length))).drop pos).take s.length
      = ((l.take pos ++ (s ++ l.drop (pos + s.length))).drop
          (l.take pos).length).take s.length := by rw [h1]
    _ = (s ++ l.drop (pos + s.length)).take s.length := by
          rw [List.drop_left]
    _ = s := List.take_left s _

lemma accessCheck_iff (w : of_wire_buffer) (ext : Int) :
    accessCheck w ext = true ↔
      (w.buf.isSome = true ∧ 0 < ext ∧ ext ≤ w.current_bytes) := by
  simp [accessCheck, and_assoc]

/-- Roundtrip of the scalar codec: within bounds, a big-endian store of a
value representable in `n` bytes followed by a read at the same offset
returns the value exactly. -/
lemma scalar_set_get (n : Nat) (w : of_wire_buffer) (off : Int) (v : Nat)
    (hwf : wf w) (hinv : wbuf_invariant w) (hoff : 0 ≤ off) (hn : 0 < n)
    (hroom : off + (n : Int) ≤ w.current_bytes) (hv : v < 256 ^ n) :
    scalar_get n (scalar_set n w off v).1 off = some v := by
  obtain ⟨hsome, hlen⟩ := hwf
  obtain ⟨hinv0, hinv1⟩ := hinv
  have hcheck : accessCheck w (off + (n : Int)) = true := by
    rw [accessCheck_iff]
    refine ⟨hsome, by omega, hroom⟩
  have hbnd : off.toNat + (beBytes n v).length ≤ (bufData w).length := by
    rw [beBytes_length]
    omega
  unfold scalar_set
  rw [if_pos hcheck]
  unfold scalar_get
  have hcheck2 : accessCheck
      { w with buf := some (writeBytes (bufData w) off.toNat (beBytes n v)) }
      (off + (n : Int)) = true := by
    rw [accessCheck_iff]
    exact ⟨rfl, by omega, hroom⟩
  rw [if_pos hcheck2]
  have hdata : bufData
      { w with buf := some (writeBytes (bufData w) off.toNat (beBytes n v)) } =
      writeBytes (bufData w) off.toNat (beBytes n v) := rfl
  rw [hdata]
  have hread : readBytes (writeBytes (bufData w) off.toNat (beBytes n v))
      off.toNat n = beBytes n v := by
    have := readBytes_writeBytes (bufData w) (beBytes n v) off.toNat hbnd
    rwa [beBytes_length] at this
  rw [hread, beVal_beBytes, Nat.mod_eq_of_lt hv]

lemma u8_set_get (w : of_wire_buffer) (off : Int) (v : Nat)
    (hwf : wf w) (hinv : wbuf_invariant w) (hoff : 0 ≤ off)
    (hroom : off + 1 ≤ w.current_bytes) (hv : v < 2 ^ 8) :
    of_wire_buffer_u8_get (of_wire_buffer_u8_set w off v).1 off = some v := by
  have hv' : v < 256 ^ 1 := by norm_num at hv ⊢; exact hv
  exact scalar_set_get 1 w off v hwf hinv hoff one_pos (by exact_mod_cast hroom) hv'

lemma u16_set_get (w : of_wire_buffer) (off : Int) (v : Nat)
    (hwf : wf w) (hinv : wbuf_invariant w) (hoff : 0 ≤ off)
    (hroom : off + 2 ≤ w.current_bytes) (hv : v < 2 ^ 16) :
    of_wire_buffer_u16_get (of_wire_buffer_u16_set w off v).1 off = some v := by
  have hv' : v < 256 ^ 2 := by norm_num at hv ⊢; exact hv
  exact scalar_set_get 2 w off v hwf hinv hoff (by norm_num)
    (by exact_mod_cast hroom) hv'

lemma u32_set_get (w : of_wire_buffer) (off : Int) (v : Nat)
    (hwf : wf w) (hinv : wbuf_invariant w) (hoff : 0 ≤ off)
    (hroom : off + 4 ≤ w.current_bytes) (hv : v < 2 ^ 32) :
    of_wire_buffer_u32_get (of_wire_buffer_u32_set w off v).1 off = some v := by
  have hv' : v < 256 ^ 4 := by norm_num at hv ⊢; exact hv
  exact scalar_set_get 4 w off v hwf hinv hoff (by norm_num)
    (by exact_mod_cast hroom) hv'

lemma u64_set_get (w : of_wire_buffer) (off : Int) (v : Nat)
    (hwf : wf w) (hinv : wbuf_invariant w) (hoff : 0 ≤ off)
    (hroom : off + 8 ≤ w.current_bytes) (hv : v < 2 ^ 64) :
    of_wire_buffer_u64_get (of_wire_buffer_u64_set w off v).1 off = some v := by
  have hv' : v < 256 ^ 8 := by norm_num at hv ⊢; exact hv
  exact scalar_set_get 8 w off v hwf hinv hoff (by norm_num)
    (by exact_mod_cast hroom) hv'

/-! Dispatch equations of the version-polymorphic accessors: at each of
the four recognized versions they are definitionally the matching
fixed-width accessor. -/

lemma port_no_get_v10 (w : of_wire_buffer) (off : Int) :
    of_wire_buffer_port_no_get OF_VERSION_1_0 w off =
      of_wire_buffer_u16_get w off := rfl

lemma port_no_get_v11 (w : of_wire_buffer) (off : Int) :
    of_wire_buffer_port_no_get OF_VERSION_1_1 w off =
      of_wire_buffer_u32_get w off := rfl

lemma port_no_get_v12 (w : of_wire_buffer) (off : Int) :
    of_wire_buffer_port_no_get OF_VERSION_1_2 w off =
      of_wire_buffer_u32_get w off := rfl

lemma port_no_get_v13 (w : of_wire_buffer) (off : Int) :
    of_wire_buffer_port_no_get OF_VERSION_1_3 w off =
      of_wire_buffer_u32_get w off := rfl

lemma port_no_set_v10 (w : of_wire_buffer) (off : Int) (v : Nat) :
    of_wire_buffer_port_no_set OF_VERSION_1_0 w off v =
      of_wire_buffer_u16_set w off (v % 2 ^ 16) := rfl

lemma port_no_set_v11 (w : of_wire_buffer) (off : Int) (v : Nat) :
    of_wire_buffer_port_no_set OF_VERSION_1_1 w off v =
      of_wire_buffer_u32_set w off (v % 2 ^ 32) := rfl

lemma port_no_set_v12 (w : of_wire_buffer) (off : Int) (v : Nat) :
    of_wire_buffer_port_no_set OF_VERSION_1_2 w off v =
      of_wire_buffer_u32_set w off (v % 2 ^ 32) := rfl

lemma port_no_set_v13 (w : of_wire_buffer) (off : Int) (v : Nat) :
    of_wire_buffer_port_no_set OF_VERSION_1_3 w off v =
      of_wire_buffer_u32_set w off (v % 2 ^ 32) := rfl

lemma fm_cmd_get_v10 (w : of_wire_buffer) (off : Int) :
    of_wire_buffer_fm_cmd_get OF_VERSION_1_0 w off =
      of_wire_buffer_u16_get w off := rfl

lemma fm_cmd_get_v11 (w : of_wire_buffer) (off : Int) :
    of_wire_buffer_fm_cmd_get OF_VERSION_1_1 w off =
      of_wire_buffer_u8_get w off := rfl

lemma fm_cmd_get_v12 (w : of_wire_buffer) (off : Int) :
    of_wire_buffer_fm_cmd_get OF_VERSION_1_2 w off =
      of_wire_buffer_u8_get w off := rfl

lemma fm_cmd_get_v13 (w : of_wire_buffer) (off : Int) :
    of_wire_buffer_fm_cmd_get OF_VERSION_1_3 w off =
      of_wire_buffer_u8_get w off := rfl

lemma fm_cmd_set_v10 (w : of_wire_buffer) (off : Int) (v : Nat) :
    of_wire_buffer_fm_cmd_set OF_VERSION_1_0 w off v =
      of_wire_buffer_u16_set w off (v % 2 ^ 16) := rfl

lemma fm_cmd_set_v11 (w : of_wire_buffer) (off : Int) (v : Nat) :
    of_wire_buffer_fm_cmd_set OF_VERSION_1_1 w off v =
      of_wire_buffer_u8_set w off (v % 2 ^ 8) := rfl

lemma fm_cmd_set_v12 (w : of_wire_buffer) (off : Int) (v : Nat) :
    of_wire_buffer_fm_cmd_set OF_VERSION_1_2 w off v =
      of_wire_buffer_u8_set w off (v % 2 ^ 8) := rfl

lemma fm_cmd_set_v13 (w : of_wire_buffer) (off : Int) (v : Nat) :
    of_wire_buffer_fm_cmd_set OF_VERSION_1_3 w off v =
      of_wire_buffer_u8_set w off (v % 2 ^ 8) := rfl

lemma wc_bmap_get_v10 (w : of_wire_buffer) (off : Int) :
    of_wire_buffer_wc_bmap_get OF_VERSION_1_0 w off =
      of_wire_buffer_u32_get w off := rfl

lemma wc_bmap_get_v11 (w : of_wire_buffer) (off : Int) :
    of_wire_buffer_wc_bmap_get OF_VERSION_1_1 w off =
      of_wire_buffer_u32_get w off := rfl

lemma wc_bmap_get_v12 (w : of_wire_buffer) (off : Int) :
    of_wire_buffer_wc_bmap_get OF_VERSION_1_2 w off =
      of_wire_buffer_u64_get w off := rfl

lemma wc_bmap_get_v13 (w : of_wire_buffer) (off : Int) :
    of_wire_buffer_wc_bmap_get OF_VERSION_1_3 w off =
      of_wire_buffer_u64_get w off := rfl

lemma wc_bmap_set_v10 (w : of_wire_buffer) (off : Int) (v : Nat) :
    of_wire_buffer_wc_bmap_set OF_VERSION_1_0 w off v =
      of_wire_buffer_u32_set w off (v % 2 ^ 32) := rfl

lemma wc_bmap_set_v11 (w : of_wire_buffer) (off : Int) (v : Nat) :
    of_wire_buffer_wc_bmap_set OF_VERSION_1_1 w off v =
      of_wire_buffer_u32_set w off (v % 2 ^ 32) := rfl

lemma wc_bmap_set_v12 (w : of_wire_buffer) (off : Int) (v : Nat) :
    of_wire_buffer_wc_bmap_set OF_VERSION_1_2 w off v =
      of_wire_buffer_u64_set w off (v % 2 ^ 64) := rfl

lemma wc_bmap_set_v13 (w : of_wire_buffer) (off : Int) (v : Nat) :
    of_wire_buffer_wc_bmap_set OF_VERSION_1_3 w off v =
      of_wire_buffer_u64_set w off (v % 2 ^ 64) := rfl

/-! Claim theorems. -/

/-- C1 (code bug, evaluated at the failing input): on the 20-byte buffer
`wb20`, relocating the tail that starts at offset 14 to new offset 10
should move the six bytes originally at 14,…,19 to positions 10,…,15 and
lower the used extent from 20 to 16.  The code instead moves only 4
bytes (the offset difference `start_offset - new_offset`), leaves
`current_bytes` at 20, and stores the adjusted length into `alloc_bytes`
(which drops to 16); the symmetric forward relocation 10 → 14 always
fails its access check, because that check compares `current_bytes`
against `alloc_bytes + (new_offset - start_offset)`. -/
theorem move_end_shrink_eval :
    (of_wire_buffer_move_end wb20 14 10).2 = true
  ∧ (of_wire_buffer_move_end wb20 14 10).1.current_bytes = 20
  ∧ (of_wire_buffer_move_end wb20 14 10).1.alloc_bytes = 16
  ∧ (of_wire_buffer_move_end wb20 14 10).1.buf =
      some [0, 1, 2, 3, 4, 5, 6, 7, 8, 9, 14, 15, 16, 17, 14, 15, 16, 17,
        18, 19]
  ∧ (of_wire_buffer_move_end wb20 10 14).2 = false := by
  decide

/-- C5 (code bug, evaluated at the failing input): `wb20` satisfies the
state invariant `0 ≤ current_bytes ≤ alloc_bytes`, but after the
relocation `of_wire_buffer_move_end wb20 14 10` it no longer does:
the code subtracts the moved distance from `alloc_bytes` instead of
`current_bytes`, leaving `current_bytes = 20 > 16 = alloc_bytes`. -/
theorem move_end_invariant_violation :
    wbuf_invariant wb20 ∧
    ¬ wbuf_invariant (of_wire_buffer_move_end wb20 14 10).1 := by
  decide

/-- C2 (counterexample): binding a 3-byte caller region with no release
function and then destroying the wire buffer does release the caller's
memory — `of_wire_buffer_free` falls back to the default allocator
`FREE` when the stored release pointer is NULL, rather than leaving the
bytes unreleased. -/
theorem bind_no_release_free_eval :
    of_wire_buffer_free (of_wire_buffer_new_bind [7, 8, 9] 3 false) =
      FreeAction.defaultFree
  ∧ FreeAction.defaultFree ≠ FreeAction.noFree := by
  decide

/-- C2 (amended): for every externally supplied region bound with no
release function, destruction releases the region with the default
allocator `FREE` (a NULL `buf_free` selects the default deallocation,
it does not mean the caller retains ownership); the bound bytes are
stored unmodified, and nothing ever writes them before the release. -/
theorem bind_no_release_default_frees (b : List Nat) (n : Int) :
    of_wire_buffer_free (of_wire_buffer_new_bind b n false) =
      FreeAction.defaultFree
  ∧ (of_wire_buffer_new_bind b n false).buf = some b :=
  ⟨rfl, rfl⟩

/-- C8: a successful `of_wire_buffer_new a_bytes` yields capacity
`max a_bytes 128` (the fixed minimum floor `OF_WIRE_BUFFER_MIN_ALLOC_BYTES`),
used extent 0, and a fully zero-initialized data buffer whose length is
exactly that capacity. -/
theorem new_respects_floor_and_zeroes (a : Int) :
    (of_wire_buffer_new a).alloc_bytes = max a OF_WIRE_BUFFER_MIN_ALLOC_BYTES
  ∧ (of_wire_buffer_new a).current_bytes = 0
  ∧ (of_wire_buffer_new a).buf =
      some (List.replicate (max a OF_WIRE_BUFFER_MIN_ALLOC_BYTES).toNat 0)
  ∧ wf (of_wire_buffer_new a) := by
  have hmax : (if a < OF_WIRE_BUFFER_MIN_ALLOC_BYTES
      then OF_WIRE_BUFFER_MIN_ALLOC_BYTES else a) =
      max a OF_WIRE_BUFFER_MIN_ALLOC_BYTES := by
    rcases lt_or_le a OF_WIRE_BUFFER_MIN_ALLOC_BYTES with h | h
    · rw [if_pos h, max_eq_right h.le]
    · rw [if_neg (not_lt.mpr h), max_eq_left h]
  have hnn : (0 : Int) ≤ max a OF_WIRE_BUFFER_MIN_ALLOC_BYTES := by
    refine le_trans ?_ (le_max_right _ _)
    unfold OF_WIRE_BUFFER_MIN_ALLOC_BYTES
    norm_num
  refine ⟨?_, ?_, ?_, ?_⟩
  · simp [of_wire_buffer_new, hmax]
  · simp [of_wire_buffer_new]
  · simp [of_wire_buffer_new, hmax]
  · refine ⟨by simp [of_wire_buffer_new], ?_⟩
    simp [of_wire_buffer_new, bufData, hmax, Int.toNat_of_nonneg hnn]

/-- C3 (counterexample): under version 1.0 the port field is 16 bits on
the wire, while the canonical `of_port_no_t` holds 32-bit values;
setting the value 65536 and reading it back at the same offset yields 0,
not the value written, because the narrowing cast `(uint16_t)value`
truncates it. -/
theorem port_no_v10_roundtrip_truncates :
    of_wire_buffer_port_no_get OF_VERSION_1_0
      (of_wire_buffer_port_no_set OF_VERSION_1_0 wb4 0 65536).1 0 = some 0
  ∧ (65536 : Nat) ≠ 0 := by
  decide

/-- C3 (amended): set-then-get at the same offset returns the written
value exactly for every scalar width in {1,2,4,8} and for every
version-dependent field under each of the four versions, for every
offset with `offset + width ≤ used_extent` for the wire width the
access uses, provided the value is representable in that wire width
(values below 2^8, 2^16, 2^32, 2^64 as appropriate); wider canonical
values are truncated by the narrowing casts, as the counterexample
shows.  The conjuncts are grouped by wire width, each group under
exactly its own bound `off + width ≤ current_bytes`. -/
theorem set_get_roundtrip (w : of_wire_buffer) (off : Int)
    (v1 v2 v4 v8 : Nat)
    (hwf : wf w) (hinv : wbuf_invariant w) (hoff : 0 ≤ off)
    (h1 : v1 < 2 ^ 8) (h2 : v2 < 2 ^ 16) (h4 : v4 < 2 ^ 32)
    (h8 : v8 < 2 ^ 64) :
    (off + 1 ≤ w.current_bytes →
      (of_wire_buffer_u8_get (of_wire_buffer_u8_set w off v1).1 off = some v1)
    ∧ (of_wire_buffer_fm_cmd_get OF_VERSION_1_1
        (of_wire_buffer_fm_cmd_set OF_VERSION_1_1 w off v1).1 off = some v1)
    ∧ (of_wire_buffer_fm_cmd_get OF_VERSION_1_2
        (of_wire_buffer_fm_cmd_set OF_VERSION_1_2 w off v1).1 off = some v1)
    ∧ (of_wire_buffer_fm_cmd_get OF_VERSION_1_3
        (of_wire_buffer_fm_cmd_set OF_VERSION_1_3 w off v1).1 off = some v1))
  ∧ (off + 2 ≤ w.current_bytes →
      (of_wire_buffer_u16_get (of_wire_buffer_u16_set w off v2).1 off =
        some v2)
    ∧ (of_wire_buffer_port_no_get OF_VERSION_1_0
        (of_wire_buffer_port_no_set OF_VERSION_1_0 w off v2).1 off = some v2)
    ∧ (of_wire_buffer_fm_cmd_get OF_VERSION_1_0
        (of_wire_buffer_fm_cmd_set OF_VERSION_1_0 w off v2).1 off = some v2))
  ∧ (off + 4 ≤ w.current_bytes →
      (of_wire_buffer_u32_get (of_wire_buffer_u32_set w off v4).1 off =
        some v4)
    ∧ (of_wire_buffer_port_no_get OF_VERSION_1_1
        (of_wire_buffer_port_no_set OF_VERSION_1_1 w off v4).1 off = some v4)
    ∧ (of_wire_buffer_port_no_get OF_VERSION_1_2
        (of_wire_buffer_port_no_set OF_VERSION_1_2 w off v4).1 off = some v4)
    ∧ (of_wire_buffer_port_no_get OF_VERSION_1_3
        (of_wire_buffer_port_no_set OF_VERSION_1_3 w off v4).1 off = some v4)
    ∧ (of_wire_buffer_wc_bmap_get OF_VERSION_1_0
        (of_wire_buffer_wc_bmap_set OF_VERSION_1_0 w off v4).1 off = some v4)
    ∧ (of_wire_buffer_wc_bmap_get OF_VERSION_1_1
        (of_wire_buffer_wc_bmap_set OF_VERSION_1_1 w off v4).1 off = some v4))
  ∧ (off + 8 ≤ w.current_bytes →
      (of_wire_buffer_u64_get (of_wire_buffer_u64_set w off v8).1 off =
        some v8)
    ∧ (of_wire_buffer_wc_bmap_get OF_VERSION_1_2
        (of_wire_buffer_wc_bmap_set OF_VERSION_1_2 w off v8).1 off = some v8)
    ∧ (of_wire_buffer_wc_bmap_get OF_VERSION_1_3
        (of_wire_buffer_wc_bmap_set OF_VERSION_1_3 w off v8).1 off = some v8))
    := by
  have e1 : v1 % 2 ^ 8 = v1 := Nat.mod_eq_of_lt h1
  have e2 : v2 % 2 ^ 16 = v2 := Nat.mod_eq_of_lt h2
  have e4 : v4 % 2 ^ 32 = v4 := Nat.mod_eq_of_lt h4
  have e8 : v8 % 2 ^ 64 = v8 := Nat.mod_eq_of_lt h8
  refine ⟨?_, ?_, ?_, ?_⟩
  · intro r1
    have hu8 := u8_set_get w off v1 hwf hinv hoff r1 h1
    refine ⟨hu8, ?_, ?_, ?_⟩
    · rw [fm_cmd_set_v11, fm_cmd_get_v11, e1]
      exact hu8
    · rw [fm_cmd_set_v12, fm_cmd_get_v12, e1]
      exact hu8
    · rw [fm_cmd_set_v13, fm_cmd_get_v13, e1]
      exact hu8
  · intro r2
    have hu16 := u16_set_get w off v2 hwf hinv hoff r2 h2
    refine ⟨hu16, ?_, ?_⟩
    · rw [port_no_set_v10, port_no_get_v10, e2]
      exact hu16
    · rw [fm_cmd_set_v10, fm_cmd_get_v10, e2]
      exact hu16
  · intro r4
    have hu32 := u32_set_get w off v4 hwf hinv hoff r4 h4
    refine ⟨hu32, ?_, ?_, ?_, ?_, ?_⟩
    · rw [port_no_set_v11, port_no_get_v11, e4]
      exact hu32
    · rw [port_no_set_v12, port_no_get_v12, e4]
      exact hu32
    · rw [port_no_set_v13, port_no_get_v13, e4]
      exact hu32
    · rw [wc_bmap_set_v10, wc_bmap_get_v10, e4]
      exact hu32
    · rw [wc_bmap_set_v11, wc_bmap_get_v11, e4]
      exact hu32
  · intro r8
    have hu64 := u64_set_get w off v8 hwf hinv hoff r8 h8
    refine ⟨hu64, ?_, ?_⟩
    · rw [wc_bmap_set_v12, wc_bmap_get_v12, e8]
      exact hu64
    · rw [wc_bmap_set_v13, wc_bmap_get_v13, e8]
      exact hu64

/-- Witness for `set_get_roundtrip` at the 8-byte buffer `wb8`, offset 0,
values 171, 43981, 3735928559 (0xDEADBEEF) and 1311768467463790320; at
this input the per-width bound of each of the four groups holds. -/
theorem set_get_roundtrip_witness :
    (wf wb8 ∧ wbuf_invariant wb8 ∧ (0 : Int) ≤ 0
      ∧ 171 < 2 ^ 8 ∧ 43981 < 2 ^ 16 ∧ 3735928559 < 2 ^ 32
      ∧ 1311768467463790320 < 2 ^ 64)
  ∧ (((0 : Int) + 1 ≤ wb8.current_bytes →
      (of_wire_buffer_u8_get (of_wire_buffer_u8_set wb8 0 171).1 0 =
        some 171)
    ∧ (of_wire_buffer_fm_cmd_get OF_VERSION_1_1
        (of_wire_buffer_fm_cmd_set OF_VERSION_1_1 wb8 0 171).1 0 = some 171)
    ∧ (of_wire_buffer_fm_cmd_get OF_VERSION_1_2
        (of_wire_buffer_fm_cmd_set OF_VERSION_1_2 wb8 0 171).1 0 = some 171)
    ∧ (of_wire_buffer_fm_cmd_get OF_VERSION_1_3
        (of_wire_buffer_fm_cmd_set OF_VERSION_1_3 wb8 0 171).1 0 =
        some 171))
  ∧ ((0 : Int) + 2 ≤ wb8.current_bytes →
      (of_wire_buffer_u16_get (of_wire_buffer_u16_set wb8 0 43981).1 0 =
        some 43981)
    ∧ (of_wire_buffer_port_no_get OF_VERSION_1_0
        (of_wire_buffer_port_no_set OF_VERSION_1_0 wb8 0 43981).1 0 =
        some 43981)
    ∧ (of_wire_buffer_fm_cmd_get OF_VERSION_1_0
        (of_wire_buffer_fm_cmd_set OF_VERSION_1_0 wb8 0 43981).1 0 =
        some 43981))
  ∧ ((0 : Int) + 4 ≤ wb8.current_bytes →
      (of_wire_buffer_u32_get (of_wire_buffer_u32_set wb8 0 3735928559).1 0 =
        some 3735928559)
    ∧ (of_wire_buffer_port_no_get OF_VERSION_1_1
        (of_wire_buffer_port_no_set OF_VERSION_1_1 wb8 0 3735928559).1 0 =
        some 3735928559)
    ∧ (of_wire_buffer_port_no_get OF_VERSION_1_2
        (of_wire_buffer_port_no_set OF_VERSION_1_2 wb8 0 3735928559).1 0 =
        some 3735928559)
    ∧ (of_wire_buffer_port_no_get OF_VERSION_1_3
        (of_wire_buffer_port_no_set OF_VERSION_1_3 wb8 0 3735928559).1 0 =
        some 3735928559)
    ∧ (of_wire_buffer_wc_bmap_get OF_VERSION_1_0
        (of_wire_buffer_wc_bmap_set OF_VERSION_1_0 wb8 0 3735928559).1 0 =
        some 3735928559)
    ∧ (of_wire_buffer_wc_bmap_get OF_VERSION_1_1
        (of_wire_buffer_wc_bmap_set OF_VERSION_1_1 wb8 0 3735928559).1 0 =
        some 3735928559))
  ∧ ((0 : Int) + 8 ≤ wb8.current_bytes →
      (of_wire_buffer_u64_get
        (of_wire_buffer_u64_set wb8 0 1311768467463790320).1 0 =
        some 1311768467463790320)
    ∧ (of_wire_buffer_wc_bmap_get OF_VERSION_1_2
        (of_wire_buffer_wc_bmap_set OF_VERSION_1_2 wb8 0
          1311768467463790320).1 0 = some 1311768467463790320)
    ∧ (of_wire_buffer_wc_bmap_get OF_VERSION_1_3
        (of_wire_buffer_wc_bmap_set OF_VERSION_1_3 wb8 0
          1311768467463790320).1 0 = some 1311768467463790320))) :=
  ⟨⟨by decide, by decide, by decide, by decide, by decide, by decide,
    by decide⟩,
   set_get_roundtrip wb8 0 171 43981 3735928559 1311768467463790320
     (by decide) (by decide) (by decide) (by decide) (by decide) (by decide)
     (by decide)⟩

/-- C4: characterization of the bounds check of the scalar accessors
(`of_wire_buffer_uN_get/set` are `scalar_get/set` at widths 1, 2, 4, 8).
At a buffer offset `off` (a nonnegative index into the buffer) and width
`n ≥ 1`, the access passes the check iff the storage is non-NULL and
`off + n ≤ current_bytes`; it fails exactly when `off + n` exceeds the
used extent or the storage is NULL, including the boundary case
`off + n = current_bytes + 1`. -/
theorem scalar_access_check_iff (w : of_wire_buffer) (off n vv : Nat)
    (hn : 0 < n) :
    ((scalar_get n w (off : Int)).isSome = true ↔
      (w.buf ≠ none ∧ (off : Int) + (n : Int) ≤ w.current_bytes))
  ∧ ((scalar_set n w (off : Int) vv).2 = true ↔
      (w.buf ≠ none ∧ (off : Int) + (n : Int) ≤ w.current_bytes))
  ∧ ((off : Int) + (n : Int) = w.current_bytes + 1 →
      scalar_get n w (off : Int) = none ∧
      scalar_set n w (off : Int) vv = (w, false)) := by
  have hpos : (0 : Int) < (off : Int) + (n : Int) := by
    omega
  have hiff : accessCheck w ((off : Int) + (n : Int)) = true ↔
      (w.buf ≠ none ∧ (off : Int) + (n : Int) ≤ w.current_bytes) := by
    rw [accessCheck_iff]
    constructor
    · rintro ⟨ha, -, hc⟩
      exact ⟨Option.isSome_iff_ne_none.mp ha, hc⟩
    · rintro ⟨ha, hc⟩
      exact ⟨Option.isSome_iff_ne_none.mpr ha, hpos, hc⟩
  refine ⟨?_, ?_, ?_⟩
  · unfold scalar_get
    split_ifs with h
    · exact iff_of_true (by simp) (hiff.mp h)
    · exact iff_of_false (by simp) (fun hr => h (hiff.mpr hr))
  · unfold scalar_set
    split_ifs with h
    · exact iff_of_true rfl (hiff.mp h)
    · exact iff_of_false (by simp) (fun hr => h (hiff.mpr hr))
  · intro hb
    have hno : ¬ accessCheck w ((off : Int) + (n : Int)) = true := by
      rw [accessCheck_iff]
      rintro ⟨-, -, hc⟩
      omega
    constructor
    · unfold scalar_get
      rw [if_neg hno]
    · unfold scalar_set
      rw [if_neg hno]

/-- Witness for `scalar_access_check_iff` on the 4-byte buffer `wb4` at
offset 1 and width 4, which is exactly the boundary case
`off + n = current_bytes + 1`. -/
theorem scalar_access_check_iff_witness :
    (0 < 4)
  ∧ (((scalar_get 4 wb4 1).isSome = true ↔
      (wb4.buf ≠ none ∧ (1 : Int) + 4 ≤ wb4.current_bytes))
  ∧ ((scalar_set 4 wb4 1 9).2 = true ↔
      (wb4.buf ≠ none ∧ (1 : Int) + 4 ≤ wb4.current_bytes))
  ∧ ((1 : Int) + 4 = wb4.current_bytes + 1 →
      scalar_get 4 wb4 1 = none ∧ scalar_set 4 wb4 1 9 = (wb4, false))) :=
  ⟨by decide, scalar_access_check_iff wb4 1 4 9 (by decide)⟩

lemma scalar_set_snd_false (n : Nat) (w : of_wire_buffer) (off : Int)
    (v : Nat) (h : (scalar_set n w off v).2 = false) :
    (scalar_set n w off v).1 = w := by
  unfold scalar_set
  split_ifs with hc
  · exfalso
    unfold scalar_set at h
    rw [if_pos hc] at h
    simp at h
  · rfl

lemma port_no_set_snd_false (ver : Int) (w : of_wire_buffer) (off : Int)
    (v : Nat) (h : (of_wire_buffer_port_no_set ver w off v).2 = false) :
    (of_wire_buffer_port_no_set ver w off v).1 = w := by
  unfold of_wire_buffer_port_no_set of_wire_buffer_u16_set
    of_wire_buffer_u32_set at h ⊢
  split_ifs at h ⊢
  · exact scalar_set_snd_false 2 w off (v % 2 ^ 16) h
  · exact scalar_set_snd_false 4 w off (v % 2 ^ 32) h
  · rfl

lemma fm_cmd_set_snd_false (ver : Int) (w : of_wire_buffer) (off : Int)
    (v : Nat) (h : (of_wire_buffer_fm_cmd_set ver w off v).2 = false) :
    (of_wire_buffer_fm_cmd_set ver w off v).1 = w := by
  unfold of_wire_buffer_fm_cmd_set of_wire_buffer_u16_set
    of_wire_buffer_u8_set at h ⊢
  split_ifs at h ⊢
  · exact scalar_set_snd_false 2 w off (v % 2 ^ 16) h
  · exact scalar_set_snd_false 1 w off (v % 2 ^ 8) h
  · rfl

lemma wc_bmap_set_snd_false (ver : Int) (w : of_wire_buffer) (off : Int)
    (v : Nat) (h : (of_wire_buffer_wc_bmap_set ver w off v).2 = false) :
    (of_wire_buffer_wc_bmap_set ver w off v).1 = w := by
  unfold of_wire_buffer_wc_bmap_set of_wire_buffer_u32_set
    of_wire_buffer_u64_set at h ⊢
  split_ifs at h ⊢
  · exact scalar_set_snd_false 4 w off (v % 2 ^ 32) h
  · exact scalar_set_snd_false 8 w off (v % 2 ^ 64) h
  · rfl

/-- C6: a set operation whose bounds check fails leaves the buffer state
(contents, both extents, release mode) completely unchanged.  For the
scalar and byte-run setters this is stated against the failing access
check directly; for the version-dispatched setters it is stated for
every aborting call (bounds-check failure or unknown version): whenever
the call does not complete, the state is the input state, because every
assertion precedes the first mutation. -/
theorem set_check_fail_no_mutation (w : of_wire_buffer)
    (off cur ver : Int) (n v : Nat) (data : List Nat)
    (hchk : accessCheck w (off + (n : Int)) = false)
    (hdchk : accessCheck w (off + (data.length : Int)) = false)
    (hp : (of_wire_buffer_port_no_set ver w off v).2 = false)
    (hf : (of_wire_buffer_fm_cmd_set ver w off v).2 = false)
    (hwc : (of_wire_buffer_wc_bmap_set ver w off v).2 = false) :
    scalar_set n w off v = (w, false)
  ∧ of_wire_buffer_octets_data_set w off data cur = (w, false)
  ∧ (of_wire_buffer_port_no_set ver w off v).1 = w
  ∧ (of_wire_buffer_fm_cmd_set ver w off v).1 = w
  ∧ (of_wire_buffer_wc_bmap_set ver w off v).1 = w := by
  refine ⟨?_, ?_, port_no_set_snd_false ver w off v hp,
    fm_cmd_set_snd_false ver w off v hf,
    wc_bmap_set_snd_false ver w off v hwc⟩
  · simp [scalar_set, hchk]
  · unfold of_wire_buffer_octets_data_set
    split_ifs with h1 h2
    · rw [hdchk] at h2
      simp at h2
    · rfl
    · rfl

/-- Witness for `set_check_fail_no_mutation`: `wb4` has used extent 4, so
every set at offset 10 fails its bounds check. -/
theorem set_check_fail_no_mutation_witness :
    (accessCheck wb4 (10 + ((4 : Nat) : Int)) = false
      ∧ accessCheck wb4 (10 + (([1, 2] : List Nat).length : Int)) = false
      ∧ (of_wire_buffer_port_no_set 1 wb4 10 3).2 = false
      ∧ (of_wire_buffer_fm_cmd_set 1 wb4 10 3).2 = false
      ∧ (of_wire_buffer_wc_bmap_set 1 wb4 10 3).2 = false)
  ∧ (scalar_set 4 wb4 10 3 = (wb4, false)
      ∧ of_wire_buffer_octets_data_set wb4 10 [1, 2] 2 = (wb4, false)
      ∧ (of_wire_buffer_port_no_set 1 wb4 10 3).1 = wb4
      ∧ (of_wire_buffer_fm_cmd_set 1 wb4 10 3).1 = wb4
      ∧ (of_wire_buffer_wc_bmap_set 1 wb4 10 3).1 = wb4) :=
  ⟨⟨by decide, by decide, by decide, by decide, by decide⟩,
   set_check_fail_no_mutation wb4 10 2 1 4 3 [1, 2] (by decide) (by decide)
     (by decide) (by decide) (by decide)⟩

/-- C7 (counterexample): on the buffer `wb12`, whose used extent is
already 12, growing to target 10 and then to target 5 (both within the
capacity 12, with 5 < 10) leaves the used extent at 12, not at the first
target 10 as claimed. -/
theorem grow_sequence_counterexample :
    (10 : Int) ≤ wb12.alloc_bytes ∧ (5 : Int) < 10
  ∧ (of_wire_buffer_grow (of_wire_buffer_grow wb12 10).1 5).1.current_bytes
      = 12
  ∧ (12 : Int) ≠ 10 := by
  decide

lemma grow_current (w : of_wire_buffer) (t : Int) (ht : t ≤ w.alloc_bytes) :
    (of_wire_buffer_grow w t).1.current_bytes = max w.current_bytes t ∧
    (of_wire_buffer_grow w t).1.alloc_bytes = w.alloc_bytes ∧
    (of_wire_buffer_grow w t).2 = true := by
  unfold of_wire_buffer_grow
  rw [if_pos ht]
  split_ifs with h
  · exact ⟨by simp [max_eq_right h.le], rfl, rfl⟩
  · exact ⟨by simp [max_eq_left (not_lt.mp h)], rfl, rfl⟩

/-- C7 (amended): `grow` never decreases the used extent: a single
`grow t` with `t` within capacity succeeds and sets the used extent to
`max used_extent t`; consequently `grow t1` followed by `grow t2` with
`t2 < t1 ≤ capacity` leaves the used extent at `t1` exactly when the
starting used extent was at most `t1` (in general it leaves
`max used_extent t1`). -/
theorem grow_max_monotonic (w : of_wire_buffer) (t t1 t2 : Int)
    (ht : t ≤ w.alloc_bytes) (h21 : t2 < t1) (h1 : t1 ≤ w.alloc_bytes)
    (hc : w.current_bytes ≤ t1) :
    (of_wire_buffer_grow w t).1.current_bytes = max w.current_bytes t
  ∧ (of_wire_buffer_grow w t).2 = true
  ∧ (of_wire_buffer_grow (of_wire_buffer_grow w t1).1 t2).1.current_bytes
      = t1 := by
  obtain ⟨g1c, -, g1t⟩ := grow_current w t ht
  obtain ⟨h1c, h1a, -⟩ := grow_current w t1 h1
  have h2le : t2 ≤ (of_wire_buffer_grow w t1).1.alloc_bytes := by omega
  obtain ⟨h2c, -, -⟩ := grow_current (of_wire_buffer_grow w t1).1 t2 h2le
  refine ⟨g1c, g1t, ?_⟩
  rw [h2c, h1c, max_eq_right hc, max_eq_left h21.le]

/-- Witness for `grow_max_monotonic` at `wb12` with targets 9, 12, 5. -/
theorem grow_max_monotonic_witness :
    ((9 : Int) ≤ wb12.alloc_bytes ∧ (5 : Int) < 12
      ∧ (12 : Int) ≤ wb12.alloc_bytes ∧ wb12.current_bytes ≤ 12)
  ∧ ((of_wire_buffer_grow wb12 9).1.current_bytes = max wb12.current_bytes 9
      ∧ (of_wire_buffer_grow wb12 9).2 = true
      ∧ (of_wire_buffer_grow (of_wire_buffer_grow wb12 12).1 5).1.current_bytes
          = 12) :=
  ⟨⟨by decide, by decide, by decide, by decide⟩,
   grow_max_monotonic wb12 9 12 5 (by decide) (by decide) (by decide)
     (by decide)⟩

/-- C9: every version-dispatched accessor invoked with a version tag
different from all four recognized versions hits `LOCI_ASSERT(0)` in the
`default` arm before any buffer access: the getters abort without
writing their output value, the setters abort returning the state
unchanged. -/
theorem versioned_unknown_version_aborts (w : of_wire_buffer)
    (ver off : Int) (v : Nat)
    (h0 : ver ≠ OF_VERSION_1_0) (h1 : ver ≠ OF_VERSION_1_1)
    (h2 : ver ≠ OF_VERSION_1_2) (h3 : ver ≠ OF_VERSION_1_3) :
    of_wire_buffer_port_no_get ver w off = none
  ∧ of_wire_buffer_port_no_set ver w off v = (w, false)
  ∧ of_wire_buffer_fm_cmd_get ver w off = none
  ∧ of_wire_buffer_fm_cmd_set ver w off v = (w, false)
  ∧ of_wire_buffer_wc_bmap_get ver w off = none
  ∧ of_wire_buffer_wc_bmap_set ver w off v = (w, false) := by
  unfold of_wire_buffer_port_no_get of_wire_buffer_port_no_set
    of_wire_buffer_fm_cmd_get of_wire_buffer_fm_cmd_set
    of_wire_buffer_wc_bmap_get of_wire_buffer_wc_bmap_set
  simp [h0, h1, h2, h3]

/-- Witness for `versioned_unknown_version_aborts` at version tag 0. -/
theorem versioned_unknown_version_aborts_witness :
    ((0 : Int) ≠ OF_VERSION_1_0 ∧ (0 : Int) ≠ OF_VERSION_1_1
      ∧ (0 : Int) ≠ OF_VERSION_1_2 ∧ (0 : Int) ≠ OF_VERSION_1_3)
  ∧ (of_wire_buffer_port_no_get 0 wb4 0 = none
      ∧ of_wire_buffer_port_no_set 0 wb4 0 5 = (wb4, false)
      ∧ of_wire_buffer_fm_cmd_get 0 wb4 0 = none
      ∧ of_wire_buffer_fm_cmd_set 0 wb4 0 5 = (wb4, false)
      ∧ of_wire_buffer_wc_bmap_get 0 wb4 0 = none
      ∧ of_wire_buffer_wc_bmap_set 0 wb4 0 5 = (wb4, false)) :=
  ⟨⟨by decide, by decide, by decide, by decide⟩,
   versioned_unknown_version_aborts wb4 0 0 5 (by decide) (by decide)
     (by decide) (by decide)⟩

/-- C10: the access check requires a strictly positive requested extent,
so a zero-length byte-run access at offset 0 fails the check even though
it requests no bytes, while zero-length accesses at any offset that is
positive and within the used extent pass (the get returning the empty
byte run, the set completing). -/
theorem octets_zero_length_boundary (w : of_wire_buffer) (off : Int)
    (hb : w.buf.isSome = true) (h0 : 0 < off)
    (hle : off ≤ w.current_bytes) :
    of_wire_buffer_octets_data_get w 0 0 = none
  ∧ of_wire_buffer_octets_data_set w 0 [] 0 = (w, false)
  ∧ of_wire_buffer_octets_data_get w off 0 = some []
  ∧ (of_wire_buffer_octets_data_set w off [] 0).2 = true := by
  have hchk0 : accessCheck w 0 = false := by
    simp [accessCheck]
  have hchkp : accessCheck w off = true := by
    rw [accessCheck_iff]
    exact ⟨hb, h0, hle⟩
  refine ⟨?_, ?_, ?_, ?_⟩
  · simp [of_wire_buffer_octets_data_get, hchk0]
  · simp [of_wire_buffer_octets_data_set, hchk0]
  · simp [of_wire_buffer_octets_data_get, hchkp, readBytes]
  · simp [of_wire_buffer_octets_data_set, hchkp]

/-- Witness for `octets_zero_length_boundary` on `wb4` at offset 2. -/
theorem octets_zero_length_boundary_witness :
    (wb4.buf.isSome = true ∧ (0 : Int) < 2 ∧ (2 : Int) ≤ wb4.current_bytes)
  ∧ (of_wire_buffer_octets_data_get wb4 0 0 = none
      ∧ of_wire_buffer_octets_data_set wb4 0 [] 0 = (wb4, false)
      ∧ of_wire_buffer_octets_data_get wb4 2 0 = some []
      ∧ (of_wire_buffer_octets_data_set wb4 2 [] 0).2 = true) :=
  ⟨⟨by decide, by decide, by decide⟩,
   octets_zero_length_boundary wb4 2 (by decide) (by decide) (by decide)⟩

end OfWireBuf
